import Mathlib

/-!
Shallow embedding of the asynchronous data-fetch orchestration layer of the
stock-watchlist application, together with proofs checking the
natural-language specification against it.

The embedding covers:
* the remote access layer (`src/unnamed/part_000`): `fetchWithTimeout`,
  `isRateLimited`, `parseError`, `searchSymbol`, `fetchQuote`,
  `getMockSearchResults`, `getMockQuote` and the two mock tables;
* the debounced search controller (`src/unnamed/part_002`, `SearchBar`):
  an event-step machine `stepC` over `CState`, plus a timed model
  `debounceFires` of the 500 ms debounce timer in `handleChange`;
* the per-symbol quote state (`src/src/StockCard.jsx`, `App`): the three
  `setStockData` updaters of `fetchStock` (`applyLoading`, `applySuccess`,
  `applyError`) and an event-step machine `stepA` over `AppState` for
  `handleAdd` / `handleRemove` / fetch resolutions.

JavaScript platform functions that the source calls are modelled explicitly:
string search (`includes`, `startsWith`, `toLowerCase`, `trim`) over `List
Char`, `parseFloat` / `toFixed(2)` over exact decimal values (`parseFloatD`
/ `toFixed2`, without the exponent and `Infinity` forms, which this
program's data never uses), and `JSON.parse` as an abstract
`parse : String → Option Payload`
parameter (`none` models a `SyntaxError` throw).  JavaScript truthiness of a
possibly-absent string field is `truthy`.
-/

/-! ## String helpers (models of JS string builtins, over `List Char`) -/

/-- `listStarts p s`: `p` is a prefix of `s` (models `String.prototype.startsWith`
on the character level). -/
def listStarts : List Char → List Char → Bool
  | [], _ => true
  | _ :: _, [] => false
  | a :: as, b :: bs => a == b && listStarts as bs

/-- `listOccurs needle hay`: `needle` occurs contiguously in `hay`. -/
def listOccurs (needle : List Char) : List Char → Bool
  | [] => listStarts needle []
  | c :: cs => listStarts needle (c :: cs) || listOccurs needle cs

/-- Model of JS `s.includes(sub)`. -/
def strIncludes (s sub : String) : Bool := listOccurs sub.data s.data

/-- Model of JS `s.startsWith(pre)`. -/
def strStartsWith (s pre : String) : Bool := listStarts pre.data s.data

/-- ASCII lower-casing of one character (model of `toLowerCase` on the
character set this program uses). -/
def lowChar (c : Char) : Char :=
  if 'A' ≤ c ∧ c ≤ 'Z' then Char.ofNat (c.toNat + 32) else c

/-- Model of JS `s.toLowerCase()` (ASCII). -/
def strLower (s : String) : String := ⟨s.data.map lowChar⟩

/-- Characters removed by JS `String.prototype.trim`. -/
def isWs (c : Char) : Bool := c == ' ' || c == '\t' || c == '\n' || c == '\r'

/-- Model of JS `s.trim()`. -/
def strTrim (s : String) : String :=
  ⟨((s.data.dropWhile isWs).reverse.dropWhile isWs).reverse⟩

/-! ## Data model -/

deriving instance DecidableEq for Except

/-- A search result `{ symbol, name }` as produced by `searchSymbol`. -/
structure SearchResult where
  symbol : String
  name : String
deriving DecidableEq, Repr

/-- A quote `{ price, change, changePct }` as produced by `fetchQuote`. -/
structure Quote where
  price : String
  change : String
  changePct : String
deriving DecidableEq, Repr

/-- A thrown JS error value, as far as the source inspects it:
its `name` and its `message`. -/
structure JsError where
  name : String
  message : String
deriving DecidableEq, Repr

/-- `new Error(msg)` (the default error name is `"Error"`). -/
def jsError (msg : String) : JsError := ⟨"Error", msg⟩

/-- JS truthiness of a possibly-absent string field: present and non-empty. -/
def truthy : Option String → Bool
  | some s => !(s == "")
  | none => false

/-- JS `a || b` on two possibly-absent string values. -/
def jsOr (a b : Option String) : Option String := if truthy a then a else b

/-- JS `a || d` with a string default (used for `quote['10. change percent'] || '0.00%'`). -/
def jsOrStr (a : Option String) (d : String) : String :=
  if truthy a then a.getD "" else d

/-- JS string coercion of a possibly-absent field, as `parseFloat` receives it
(`String(undefined) = "undefined"`). -/
def jsStr (a : Option String) : String := a.getD "undefined"

/-- Property lookup in a JS object literal, modelled as an association list
(keys are distinct in both mock tables). -/
def assocGet {α : Type} (m : List (String × α)) (k : String) : Option α :=
  (m.find? (fun p => p.1 == k)).map Prod.snd

/-! ## Mock tables (`MOCK_SEARCH_DATA`, `MOCK_QUOTE_DATA`) -/

/-- `MOCK_SEARCH_DATA` from the remote access layer, in declaration order. -/
def MOCK_SEARCH_DATA : List (String × List SearchResult) :=
  [("aapl", [⟨"AAPL", "Apple Inc"⟩, ⟨"AAPLX", "Apple Hospitality REIT"⟩]),
   ("googl", [⟨"GOOGL", "Alphabet Inc - Class A"⟩]),
   ("msft", [⟨"MSFT", "Microsoft Corp"⟩]),
   ("tsla", [⟨"TSLA", "Tesla Inc"⟩]),
   ("amzn", [⟨"AMZN", "Amazon.com Inc"⟩]),
   ("nvda", [⟨"NVDA", "NVIDIA Corp"⟩]),
   ("meta", [⟨"META", "Meta Platforms Inc"⟩])]

/-- `MOCK_QUOTE_DATA` from the remote access layer. -/
def MOCK_QUOTE_DATA : List (String × Quote) :=
  [("AAPL", ⟨"228.87", "2.45", "1.08%"⟩),
   ("GOOGL", ⟨"189.25", "-1.30", "-0.68%"⟩),
   ("MSFT", ⟨"409.18", "5.20", "1.29%"⟩),
   ("TSLA", ⟨"350.40", "-8.75", "-2.44%"⟩),
   ("AMZN", ⟨"229.10", "3.60", "1.60%"⟩),
   ("NVDA", ⟨"132.65", "1.90", "1.45%"⟩),
   ("META", ⟨"612.00", "-4.10", "-0.67%"⟩)]

/-- `getMockSearchResults(keyword)`: exact (lower-cased) key match first, else
the first mock key that starts with the input, else throw the not-found
error.  `Object.keys(...).find(k => k.startsWith(key))` followed by indexing
is rendered as `find?` over the association pairs (keys are distinct). -/
def getMockSearchResults (keyword : String) : Except JsError (List SearchResult) :=
  let key := strLower keyword
  match assocGet MOCK_SEARCH_DATA key with
  | some v => .ok v
  | none =>
    match MOCK_SEARCH_DATA.find? (fun p => strStartsWith p.1 key) with
    | some p => .ok p.2
    | none => .error (jsError "Symbol not found. Check your spelling.")

/-- `getMockQuote(symbol)`: the per-symbol mock table, with a generic
placeholder for symbols absent from it. -/
def getMockQuote (symbol : String) : Quote :=
  match assocGet MOCK_QUOTE_DATA symbol with
  | some q => q
  | none => ⟨"100.00", "0.50", "0.50%"⟩

/-! ## Rate-limit detection and error classification -/

/-- `isRateLimited(text)` from the remote access layer. -/
def isRateLimited (text : String) : Bool :=
  let lower := strLower text
  strIncludes lower "thank you for your patience" ||
  strIncludes lower "call frequency" ||
  strIncludes lower "premium" ||
  strIncludes lower "rate limit" ||
  strIncludes lower "too many"

/-- `parseError(err, rawBody)` from the remote access layer: order-sensitive
first-match classification of `err.message + ' ' + rawBody` into a fixed
user-facing message. -/
def parseError (err : JsError) (rawBody : String) : String :=
  let combined := err.message ++ " " ++ rawBody
  if strIncludes combined "timeout" then
    "Connection timed out. Please try again."
  else if strIncludes combined "429" || isRateLimited combined then
    "Too many requests. Try again in 1 minute."
  else if strIncludes combined "Invalid API" || strIncludes combined "invalid" then
    "Configuration error. Please contact support."
  else if strIncludes combined "not found" || strIncludes combined "No data" then
    "Symbol not found. Check your spelling."
  else
    "Something went wrong. Please try again."

/-! ## Parsed upstream payloads

The two entry points read at most these fields of the parsed JSON body.
`JSON.parse` itself is an abstract parameter `parse : String → Option Payload`
of the entry points; `none` models a thrown `SyntaxError`. -/

/-- The `"Global Quote"` object: the three fields `fetchQuote` reads,
each possibly absent. -/
structure RawQuote where
  price05 : Option String
  change08 : Option String
  changePct10 : Option String
deriving DecidableEq, Repr

/-- One element of `bestMatches`: the two fields `searchSymbol` reads. -/
structure RawMatch where
  symbol1 : String
  name2 : String
deriving DecidableEq, Repr

/-- A parsed upstream response body, restricted to the fields the source reads. -/
structure Payload where
  information : Option String
  note : Option String
  bestMatches : Option (List RawMatch)
  globalQuote : Option RawQuote
deriving DecidableEq, Repr

/-! ## `fetchWithTimeout` -/

/-- `fetchWithTimeout(url, externalSignal)`, as a function of how the
underlying `fetch` + body read settles (`settled`) and of whether the
external cancellation signal was aborted (`externalAborted`).  An abort —
from the 5000 ms timeout or from the external signal — makes the pending
fetch reject with an error named `"AbortError"`; if the external signal
aborted, the raw error is rethrown for the caller to ignore, otherwise an
`AbortError` is the timeout and becomes `Error('timeout')`. -/
def fetchWithTimeout (settled : Except JsError String) (externalAborted : Bool) :
    Except JsError String :=
  match settled with
  | .ok body => .ok body
  | .error err =>
    if externalAborted then .error err
    else if err.name == "AbortError" then .error (jsError "timeout")
    else .error err

/-! ## `searchSymbol` -/

/-- The `try`-block body of `searchSymbol` after the response body has been
read: parse, rate-limit interception, provider-error throw, empty-match
check, and the success mapping. -/
def searchSymbolBody (keyword rawBody : String) (parse : String → Option Payload) :
    Except JsError (List SearchResult) :=
  match parse rawBody with
  | none => .error ⟨"SyntaxError", "Unexpected token"⟩
  | some json =>
    if truthy (jsOr json.information json.note) then
      let msg := (jsOr json.information json.note).getD ""
      if isRateLimited msg then getMockSearchResults keyword
      else .error (jsError msg)
    else
      let ms := json.bestMatches.getD []
      if ms.length = 0 then
        .error (jsError "Symbol not found. Check your spelling.")
      else
        .ok (ms.map fun m => ⟨m.symbol1, m.name2⟩)

/-- The `catch`-block of `searchSymbol`: rethrow `AbortError` and the
already-classified not-found error raw, classify everything else. -/
def searchSymbolCatch (rawBody : String) (e : JsError) :
    Except JsError (List SearchResult) :=
  if e.name == "AbortError" then .error e
  else if e.message == "Symbol not found. Check your spelling." then .error e
  else .error (jsError (parseError e rawBody))

/-- `searchSymbol(keyword, signal)`, as a function of the transport outcome
(`settled`, combining `fetch` and `res.text()`), the external signal state,
and the JSON parser.  `rawBody` is `''` when the transport failed, per the
source's `let rawBody = ''` preceding the `try`. -/
def searchSymbol (keyword : String) (settled : Except JsError String)
    (externalAborted : Bool) (parse : String → Option Payload) :
    Except JsError (List SearchResult) :=
  match fetchWithTimeout settled externalAborted with
  | .error e => searchSymbolCatch "" e
  | .ok rawBody =>
    match searchSymbolBody keyword rawBody parse with
    | .ok v => .ok v
    | .error e => searchSymbolCatch rawBody e

/-! ## `parseFloat` / `toFixed(2)` and `fetchQuote` -/

/-- Numeric value of a decimal digit character. -/
def digitVal (c : Char) : Nat := c.toNat - '0'.toNat

/-- Value of a digit string read left to right. -/
def natOfDigits (ds : List Char) : Nat :=
  ds.foldl (fun n c => 10 * n + digitVal c) 0

/-- The exact value of a parsed decimal literal: `num / 10 ^ scale`. -/
structure DecNum where
  num : Int
  scale : Nat
deriving DecidableEq, Repr

/-- Model of JS `parseFloat`: skip leading whitespace, optional sign, longest
prefix of digits with at most one decimal point; `none` models `NaN`.
The exponent and `Infinity` forms, which this program's data never uses,
are not modelled. -/
def parseFloatD (s : String) : Option DecNum :=
  let cs := s.data.dropWhile isWs
  let (neg, cs') :=
    match cs with
    | '-' :: r => (true, r)
    | '+' :: r => (false, r)
    | _ => (false, cs)
  let ip := cs'.takeWhile Char.isDigit
  let rest := cs'.dropWhile Char.isDigit
  let fp :=
    match rest with
    | '.' :: r => r.takeWhile Char.isDigit
    | _ => []
  if ip.isEmpty && fp.isEmpty then none
  else
    let mag : Nat := natOfDigits ip * 10 ^ fp.length + natOfDigits fp
    some ⟨if neg then -(mag : Int) else (mag : Int), fp.length⟩

/-- `⌊num / den + 1/2⌋` — rounding to the nearest integer, ties toward `+∞`,
as ECMA `toFixed` specifies for the magnitude ("pick the larger n"). -/
def roundHalfUp (num den : Int) : Int := Int.fdiv (2 * num + den) (2 * den)

/-- Decimal digits of a natural number (fuel-based; `fuel = n + 1` suffices). -/
def natDigits : Nat → Nat → List Char
  | 0, _ => []
  | fuel + 1, n =>
    if n < 10 then [Char.ofNat ('0'.toNat + n)]
    else natDigits fuel (n / 10) ++ [Char.ofNat ('0'.toNat + n % 10)]

/-- Decimal rendering of a natural number. -/
def natLitStr (n : Nat) : String := ⟨natDigits (n + 1) n⟩

/-- The last two decimal digits, zero-padded. -/
def twoDec (n : Nat) : String :=
  ⟨[Char.ofNat ('0'.toNat + n / 10 % 10), Char.ofNat ('0'.toNat + n % 10)]⟩

/-- Model of JS `x.toFixed(2)` on the result of `parseFloat`: `"NaN"` on
`NaN`, otherwise (per ECMA) the sign of the value, then the rounded
magnitude as integer part, `'.'`, and exactly two digits. -/
def toFixed2 : Option DecNum → String
  | none => "NaN"
  | some v =>
    let den : Int := (10 : Int) ^ v.scale
    let a : Nat := (roundHalfUp (v.num.natAbs * 100) den).toNat
    (if v.num < 0 then "-" else "") ++ natLitStr (a / 100) ++ "." ++ twoDec (a % 100)

/-- The `try`-block body of `fetchQuote` after the response body has been
read: parse, rate-limit interception with `getMockQuote`, provider-error
throw, the `!quote || !quote['05. price']` not-found check, and the success
mapping through `parseFloat(...).toFixed(2)` with the `|| '0.00%'` default. -/
def fetchQuoteBody (symbol rawBody : String) (parse : String → Option Payload) :
    Except JsError Quote :=
  match parse rawBody with
  | none => .error ⟨"SyntaxError", "Unexpected token"⟩
  | some json =>
    if truthy (jsOr json.information json.note) then
      let msg := (jsOr json.information json.note).getD ""
      if isRateLimited msg then .ok (getMockQuote symbol)
      else .error (jsError msg)
    else
      match json.globalQuote with
      | none => .error (jsError "Symbol not found. Check your spelling.")
      | some quote =>
        if !truthy quote.price05 then
          .error (jsError "Symbol not found. Check your spelling.")
        else
          .ok ⟨toFixed2 (parseFloatD (jsStr quote.price05)),
               toFixed2 (parseFloatD (jsStr quote.change08)),
               jsOrStr quote.changePct10 "0.00%"⟩

/-- The `catch`-block of `fetchQuote`: rethrow the already-classified
not-found error raw, classify everything else (note: unlike `searchSymbol`,
no `AbortError` case — `fetchQuote` passes no external signal). -/
def fetchQuoteCatch (rawBody : String) (e : JsError) : Except JsError Quote :=
  if e.message == "Symbol not found. Check your spelling." then .error e
  else .error (jsError (parseError e rawBody))

/-- `fetchQuote(symbol)`, as a function of the transport outcome and the JSON
parser.  No external signal is passed, so `externalAborted` is `false`. -/
def fetchQuote (symbol : String) (settled : Except JsError String)
    (parse : String → Option Payload) : Except JsError Quote :=
  match fetchWithTimeout settled false with
  | .error e => fetchQuoteCatch "" e
  | .ok rawBody =>
    match fetchQuoteBody symbol rawBody parse with
    | .ok v => .ok v
    | .error e => fetchQuoteCatch rawBody e

/-! ## Debounced search controller (`SearchBar`, `src/unnamed/part_002`)

Event-step machine.  The scheduling model is the single-threaded JS event
loop: each event below is one atomic turn.  `fire` is the debounce timer
callback up to its `await`; a resolution event is the continuation after the
`await` (microtasks drain before the next timer callback, so a call whose
promise chain completed is fully applied before any later `fire`).
`abort()` on the controller of a still-pending call makes that call reject
with an error named `"AbortError"`; hence an aborted call can only resolve
through `resolveErr` with such an error, never through `resolveOk`. -/

/-- One in-flight `searchSymbol` call: the input value it was issued with and
whether its `AbortController` has been aborted. -/
structure SCall where
  value : String
  aborted : Bool
deriving DecidableEq, Repr

/-- The `SearchBar` component state: the four `useState` slots, the two refs
(`debounceTimer` holding the captured input value of the pending timer,
`ctrl` the id of `abortController.current`), the in-flight calls keyed by
controller id, a fresh-id counter, and whether the component is mounted. -/
structure CState where
  input : String
  results : List SearchResult
  error : Option String
  loading : Bool
  timer : Option String
  ctrl : Option Nat
  calls : List (Nat × SCall)
  nextId : Nat
  mounted : Bool
deriving DecidableEq, Repr

/-- The initial `SearchBar` state. -/
def initC : CState :=
  ⟨"", [], none, false, none, none, [], 0, true⟩

/-- Controller events: an input change, the pending debounce timer firing,
a call resolving (with data, or with an error), and unmount. -/
inductive CEv
  | change (v : String)
  | fire
  | resolveOk (id : Nat) (data : List SearchResult)
  | resolveErr (id : Nat) (e : JsError)
  | unmount
deriving DecidableEq, Repr

/-- Mark the call owned by controller `ctrl` as aborted
(`abortController.current.abort()`). -/
def abortCtrl (calls : List (Nat × SCall)) : Option Nat → List (Nat × SCall)
  | none => calls
  | some id => calls.map fun p => if p.1 = id then (p.1, ⟨p.2.value, true⟩) else p

/-- One event of the `SearchBar` machine; `none` means the event is not
enabled in this state (no pending timer to fire, no such call to resolve,
an aborted call resolving successfully, or an aborted call rejecting with
anything but an `AbortError`). -/
def stepC (s : CState) : CEv → Option CState
  | .change v =>
    -- handleChange: setInput, setError(null), clearTimeout, then either
    -- clear results (empty after trim) or arm a new 500 ms timer.
    if s.mounted then
      if strTrim v == "" then
        some { s with input := v, error := none, timer := none, results := [] }
      else
        some { s with input := v, error := none, timer := some v }
    else none
  | .fire =>
    -- The armed timer's callback, up to the await: abort the previous
    -- in-flight call, create a new AbortController, setLoading(true),
    -- issue searchSymbol with the captured value.
    match s.timer with
    | none => none
    | some v =>
      if s.mounted then
        some { s with
          timer := none
          calls := abortCtrl s.calls s.ctrl ++ [(s.nextId, ⟨v, false⟩)]
          ctrl := some s.nextId
          nextId := s.nextId + 1
          loading := true }
      else none
  | .resolveOk id data =>
    -- `setResults(data)` then the `finally` `setLoading(false)`; a React
    -- setState on an unmounted component is a no-op.
    match (s.calls.find? (fun p => p.1 == id)).map Prod.snd with
    | none => none
    | some c =>
      if c.aborted then none
      else
        some { s with
          calls := s.calls.filter (fun p => p.1 != id)
          results := if s.mounted then data else s.results
          loading := if s.mounted then false else s.loading }
  | .resolveErr id e =>
    -- The catch: errors not named AbortError set the message and clear the
    -- results; AbortError is ignored.  Then the `finally`.
    match (s.calls.find? (fun p => p.1 == id)).map Prod.snd with
    | none => none
    | some c =>
      if c.aborted && !(e.name == "AbortError") then none
      else
        some { s with
          calls := s.calls.filter (fun p => p.1 != id)
          error := if s.mounted && !(e.name == "AbortError") then some e.message else s.error
          results := if s.mounted && !(e.name == "AbortError") then [] else s.results
          loading := if s.mounted then false else s.loading }
  | .unmount =>
    -- The useEffect cleanup: clearTimeout and abort the current controller.
    if s.mounted then
      some { s with timer := none, calls := abortCtrl s.calls s.ctrl, mounted := false }
    else none

/-- Run the `SearchBar` machine over a list of events. -/
def runC (s : CState) : List CEv → Option CState
  | [] => some s
  | e :: es =>
    match stepC s e with
    | none => none
    | some s' => runC s' es

/-! ## Timed model of the debounce (`handleChange` timer discipline)

A keystroke at time `t` with a value that is non-empty after trimming clears
the pending timer and arms a new one that fires at `t + 500`; an
empty-after-trim keystroke clears the pending timer and arms nothing.  An
armed timer fires — issuing exactly one `searchSymbol` call with its
captured value — iff no later keystroke arrives strictly before its fire
time. -/

/-- The timer (fire time, captured value) armed by a keystroke, if any. -/
def armOf (t : Nat) (v : String) : Option (Nat × String) :=
  if strTrim v == "" then none else some (t + 500, v)

/-- The search calls fired, given the pending timer and the remaining
keystrokes `(time, value)` in time order. -/
def debounceFires : Option (Nat × String) → List (Nat × String) → List (Nat × String)
  | pending, [] =>
    match pending with
    | some p => [p]
    | none => []
  | pending, (t, v) :: rest =>
    (match pending with
     | some (ft, fv) => if ft ≤ t then [(ft, fv)] else []
     | none => []) ++ debounceFires (armOf t v) rest

/-- `fastChain t ks`: the keystrokes `ks` strictly follow time `t`, each one
less than 500 ms after the previous (typed faster than the quiet interval). -/
def fastChain : Nat → List (Nat × String) → Bool
  | _, [] => true
  | t, (t', _) :: rest => t < t' && t' < t + 500 && fastChain t' rest

/-! ## Per-symbol quote state (`App`, `src/src/StockCard.jsx`) -/

/-- One entry of `stockData`:
`{ price, change, changePct, lastUpdated, loading, error }`, every field
possibly absent (spread of `{}` leaves fields `undefined`). -/
structure Entry where
  price : Option String
  change : Option String
  changePct : Option String
  lastUpdated : Option Nat
  loading : Bool
  error : Option String
deriving DecidableEq, Repr

/-- The entry produced by spreading `{}` (`prev[symbol] || {}` with no prior
entry): all value fields absent. -/
def emptyEntry : Entry := ⟨none, none, none, none, false, none⟩

/-- The `stockData` mapping: symbol to entry, `none` for absent keys. -/
def StockData := String → Option Entry

/-- `fetchStock`'s first updater: mark THIS symbol as loading, keep its other
fields (`{ ...(prev[symbol] || {}), loading: true, error: null }`). -/
def applyLoading (sd : StockData) (sym : String) : StockData :=
  fun s =>
    if s = sym then
      some { (sd sym).getD emptyEntry with loading := true, error := none }
    else sd s

/-- `fetchStock`'s success updater: replace the symbol's entry with the fresh
quote, timestamp, `loading: false`, `error: null`. -/
def applySuccess (sd : StockData) (sym : String) (q : Quote) (now : Nat) : StockData :=
  fun s =>
    if s = sym then
      some ⟨some q.price, some q.change, some q.changePct, some now, false, none⟩
    else sd s

/-- `fetchStock`'s error updater: store the message and clear loading, keep
the symbol's other fields
(`{ ...(prev[symbol] || {}), loading: false, error: err.message }`). -/
def applyError (sd : StockData) (sym : String) (msg : String) : StockData :=
  fun s =>
    if s = sym then
      some { (sd sym).getD emptyEntry with loading := false, error := some msg }
    else sd s

/-- The `App` state: the watchlist symbol list, the `stockData` mapping, and
the multiset of symbols with a `fetchQuote` call still in flight. -/
structure AppState where
  watchlist : List String
  stockData : StockData
  pending : List String

/-- The initial `App` state for a persisted watchlist `saved`: symbols appear
immediately, `stockData` starts empty (it is re-fetched on every load;
the mount effect is the `startFetch` events). -/
def initA (saved : List String) : AppState :=
  ⟨saved, fun _ => none, []⟩

/-- `App` events: `handleAdd`, `handleRemove`, a `fetchStock` invocation from
the mount effect or Refresh All, and the two resolutions of an in-flight
`fetchQuote`. -/
inductive AEv
  | add (sym : String)
  | remove (sym : String)
  | startFetch (sym : String)
  | resolveOk (sym : String) (q : Quote) (now : Nat)
  | resolveErr (sym : String) (msg : String)

/-- One event of the `App` machine.  `handleAdd` is a no-op when the list is
full or the symbol is a duplicate; resolutions require an in-flight call for
the symbol (removal does not cancel it); `startFetch` iterates the current
watchlist. -/
def stepA (s : AppState) : AEv → Option AppState
  | .add sym =>
    if 5 ≤ s.watchlist.length ∨ sym ∈ s.watchlist then some s
    else some ⟨s.watchlist ++ [sym], applyLoading s.stockData sym, s.pending ++ [sym]⟩
  | .remove sym =>
    some ⟨s.watchlist.filter (fun x => x ≠ sym),
      fun x => if x = sym then none else s.stockData x,
      s.pending⟩
  | .startFetch sym =>
    if sym ∈ s.watchlist then
      some ⟨s.watchlist, applyLoading s.stockData sym, s.pending ++ [sym]⟩
    else none
  | .resolveOk sym q now =>
    if sym ∈ s.pending then
      some ⟨s.watchlist, applySuccess s.stockData sym q now, s.pending.erase sym⟩
    else none
  | .resolveErr sym msg =>
    if sym ∈ s.pending then
      some ⟨s.watchlist, applyError s.stockData sym msg, s.pending.erase sym⟩
    else none

/-- Run the `App` machine over a list of events. -/
def runA (s : AppState) : List AEv → Option AppState
  | [] => some s
  | e :: es =>
    match stepA s e with
    | none => none
    | some s' => runA s' es

/-! ## Spec-side definitions for the failure-classification claim

Modelled from the spec: the classification is described as an ordered list of
(phrase test, kind) pairs with first-match-wins semantics, and a separate
fixed message-per-kind mapping (spec sections 4.1 and 7).  These definitions
follow the spec's words; the theorem for C5 compares them with `parseError`,
which is translated from the source. -/

/-- The spec's failure taxonomy (the kinds reachable by `parseError`;
`RateLimited` covers the "429 or rate-limit phrase" test). -/
inductive ErrorKind
  | timeout
  | rateLimited
  | configurationError
  | notFound
  | unknown
deriving DecidableEq, Repr

/-- The spec's fixed message-per-kind mapping (spec section 7). -/
def messageFor : ErrorKind → String
  | .timeout => "Connection timed out. Please try again."
  | .rateLimited => "Too many requests. Try again in 1 minute."
  | .configurationError => "Configuration error. Please contact support."
  | .notFound => "Symbol not found. Check your spelling."
  | .unknown => "Something went wrong. Please try again."

/-- First-match-wins over an ordered list of (test, kind) pairs;
`unknown` when nothing matches. -/
def firstMatchKind : List ((String → Bool) × ErrorKind) → String → ErrorKind
  | [], _ => .unknown
  | (test, k) :: rest, c => if test c then k else firstMatchKind rest c

/-- The spec's classification order: timeout, then rate-limit/429, then
invalid, then not-found. -/
def specClassOrder : List ((String → Bool) × ErrorKind) :=
  [(fun c => strIncludes c "timeout", .timeout),
   (fun c => strIncludes c "429" || isRateLimited c, .rateLimited),
   (fun c => strIncludes c "Invalid API" || strIncludes c "invalid", .configurationError),
   (fun c => strIncludes c "not found" || strIncludes c "No data", .notFound)]

/-- The spec's classification of a combined error text. -/
def classifyKind (c : String) : ErrorKind := firstMatchKind specClassOrder c

/-! ## Remaining definitions used by the theorems and witnesses -/

/-- The last keystroke of `(d :: ks)`. -/
def lastKey (d : Nat × String) : List (Nat × String) → Nat × String
  | [] => d
  | x :: xs => lastKey x xs

/-- A `SearchBar` state with one non-aborted in-flight call (witness state). -/
def c6exState : CState :=
  { initC with
    calls := [(0, ⟨"a", false⟩)]
    ctrl := some 0
    loading := true
    nextId := 1 }

/-- `c6exState` after call 0 resolves with an `AbortError` (witness state). -/
def c6exAfter : CState :=
  { initC with
    calls := []
    ctrl := some 0
    loading := false
    nextId := 1 }

/-- A `SearchBar` state with an armed timer for `"AB"` and call 0 for `"A"`
still in flight (witness state). -/
def c1s : CState :=
  { initC with
    input := "AB"
    timer := some "AB"
    ctrl := some 0
    calls := [(0, ⟨"A", false⟩)]
    nextId := 1
    loading := true }

/-- `c1s` after its timer fires: call 0 aborted, call 1 issued (witness state). -/
def c1sFired : CState :=
  { c1s with
    timer := none
    calls := [(0, ⟨"A", true⟩), (1, ⟨"AB", false⟩)]
    ctrl := some 1
    nextId := 2
    loading := true }

/-- `c1sFired` after unmount: both calls aborted (witness state). -/
def c1sUn : CState :=
  { c1sFired with
    timer := none
    calls := [(0, ⟨"A", true⟩), (1, ⟨"AB", true⟩)]
    mounted := false }

/-- `c1sFired` after aborted call 0 rejects with its `AbortError`
(witness state). -/
def c1sRes : CState :=
  { c1sFired with
    calls := [(1, ⟨"AB", false⟩)]
    loading := false }

/-- A `stockData` mapping with one stored MSFT entry (witness state). -/
def sd7 : StockData :=
  fun s =>
    if s = "MSFT" then some ⟨some "409.18", some "5.20", some "1.29%", some 3, false, none⟩
    else none

/-- An `App` state watching AAPL with its fetch in flight (witness state). -/
def a8 : AppState :=
  ⟨["AAPL"], fun s => if s = "AAPL" then some emptyEntry else none, ["AAPL"]⟩

/-- `a8` after `handleRemove("AAPL")` (witness state). -/
def a8r : AppState :=
  ⟨a8.watchlist.filter (fun x => x ≠ "AAPL"),
   fun x => if x = "AAPL" then none else a8.stockData x, a8.pending⟩

/-- A quote used by the witnesses. -/
def q8 : Quote := ⟨"229.10", "3.60", "1.60%"⟩

/-- `a8` after its in-flight fetch resolves successfully (witness state). -/
def a8ok : AppState :=
  ⟨a8.watchlist, applySuccess a8.stockData "AAPL" q8 5, a8.pending.erase "AAPL"⟩

/-- A parse function returning a Global Quote with a non-numeric price and
change (witness input for the `parseFloat` edge case). -/
def parse10 : String → Option Payload :=
  fun _ => some ⟨none, none, none, some ⟨some "abc", some "x1", none⟩⟩

/-! ## Helper lemmas -/

theorem strData_append (a b : String) : (a ++ b).data = a.data ++ b.data := rfl

theorem digitChar_isDigit : ∀ k, k < 10 → (Char.ofNat ('0'.toNat + k)).isDigit = true := by
  decide

/-- `toFixed2` on a parsed number always ends in a dot followed by exactly two
decimal digits. -/
theorem toFixed2_shape (d : DecNum) :
    ∃ pre d1 d2, (toFixed2 (some d)).data = pre ++ ['.', d1, d2] ∧
      d1.isDigit = true ∧ d2.isDigit = true := by
  simp only [toFixed2]
  set a : Nat := (roundHalfUp (d.num.natAbs * 100) ((10 : Int) ^ d.scale)).toNat with ha
  refine ⟨((if d.num < 0 then "-" else "") ++ natLitStr (a / 100)).data,
    Char.ofNat ('0'.toNat + a % 100 / 10 % 10), Char.ofNat ('0'.toNat + a % 100 % 10),
    ?_, ?_, ?_⟩
  · show ((((if d.num < 0 then "-" else "") ++ natLitStr (a / 100)) ++ "." ++
        twoDec (a % 100))).data = _
    simp only [strData_append, twoDec, List.append_assoc]
    rfl
  · exact digitChar_isDigit _ (Nat.mod_lt _ (by norm_num))
  · exact digitChar_isDigit _ (Nat.mod_lt _ (by norm_num))

theorem listStarts_refl (l : List Char) : listStarts l l = true := by
  induction l with
  | nil => rfl
  | cons a as ih => simp [listStarts, ih]

theorem strStartsWith_refl (s : String) : strStartsWith s s = true :=
  listStarts_refl s.data

/-- The only error `getMockSearchResults` produces is the not-found error. -/
theorem getMockSearchResults_error (kw : String) (e : JsError)
    (h : getMockSearchResults kw = .error e) :
    e = jsError "Symbol not found. Check your spelling." := by
  simp only [getMockSearchResults] at h
  rcases h1 : assocGet MOCK_SEARCH_DATA (strLower kw) with _ | v
  · rw [h1] at h
    rcases h2 : MOCK_SEARCH_DATA.find? (fun p => strStartsWith p.1 (strLower kw)) with _ | pr
    · rw [h2] at h
      simp at h
      exact h.symm
    · rw [h2] at h
      simp at h
  · rw [h1] at h
    simp at h

/-- `getMockSearchResults` fails (with the not-found error) exactly when the
lower-cased keyword is a prefix of no mock key. -/
theorem mockSearch_notFound_iff (kw : String) :
    getMockSearchResults kw = .error (jsError "Symbol not found. Check your spelling.") ↔
      ∀ pr ∈ MOCK_SEARCH_DATA, strStartsWith pr.1 (strLower kw) = false := by
  rcases h1 : assocGet MOCK_SEARCH_DATA (strLower kw) with _ | v
  · rcases h2 : MOCK_SEARCH_DATA.find? (fun p => strStartsWith p.1 (strLower kw)) with _ | pr
    · have hall := List.find?_eq_none.mp h2
      constructor
      · intro _ pr hpr
        simpa using hall pr hpr
      · intro _
        simp [getMockSearchResults, h1, h2]
    · have hp := List.find?_some h2
      have hm := List.mem_of_find?_eq_some h2
      constructor
      · intro h
        simp [getMockSearchResults, h1, h2] at h
      · intro hall
        have := hall pr hm
        simp only at hp
        rw [this] at hp
        cases hp
  · obtain ⟨pr, hfind, hv⟩ := Option.map_eq_some'.mp h1
    have hkey : pr.1 = strLower kw := by
      have := List.find?_some hfind
      simpa using this
    have hm := List.mem_of_find?_eq_some hfind
    constructor
    · intro h
      simp [getMockSearchResults, h1] at h
    · intro hall
      have := hall pr hm
      rw [hkey, strStartsWith_refl] at this
      cases this

/-- The rate-limit interception path of `fetchQuote`: a truthy
`Information`/`Note` whose text matches the rate-limit phrases yields the
mock quote, successfully. -/
theorem fetchQuote_rateLimited_eq (sym raw msg : String) (parse : String → Option Payload)
    (p : Payload) (h1 : parse raw = some p) (h2 : jsOr p.information p.note = some msg)
    (h3 : msg ≠ "") (h4 : isRateLimited msg = true) :
    fetchQuote sym (.ok raw) parse = .ok (getMockQuote sym) := by
  have hmsg : truthy (some msg) = true := by simpa [truthy] using h3
  have htr : truthy (jsOr p.information p.note) = true := by rw [h2]; exact hmsg
  simp only [fetchQuote, fetchWithTimeout, fetchQuoteBody, h1, htr, h2, h4, hmsg,
    Option.getD_some, if_true]

/-- The rate-limit interception path of `searchSymbol`: it delegates to
`getMockSearchResults`, whose not-found error is rethrown unchanged by the
catch block. -/
theorem searchSymbol_rateLimited_eq (kw raw msg : String) (parse : String → Option Payload)
    (p : Payload) (h1 : parse raw = some p) (h2 : jsOr p.information p.note = some msg)
    (h3 : msg ≠ "") (h4 : isRateLimited msg = true) :
    searchSymbol kw (.ok raw) false parse = getMockSearchResults kw := by
  have hmsg : truthy (some msg) = true := by simpa [truthy] using h3
  have htr : truthy (jsOr p.information p.note) = true := by rw [h2]; exact hmsg
  simp only [searchSymbol, fetchWithTimeout, searchSymbolBody, h1, htr, h2, h4, hmsg,
    Option.getD_some, if_true]
  rcases hres : getMockSearchResults kw with e | v
  · have he := getMockSearchResults_error kw e hres
    simp [searchSymbolCatch, he, jsError]
  · rfl

/-- The success path of `fetchQuote`: no `Information`/`Note`, a
`"Global Quote"` object with a truthy price, and the field mapping through
`parseFloat(...).toFixed(2)` and the `|| '0.00%'` default. -/
theorem fetchQuote_success_eq (sym raw : String) (parse : String → Option Payload)
    (p : Payload) (gq : RawQuote) (h1 : parse raw = some p)
    (h2 : truthy (jsOr p.information p.note) = false)
    (h3 : p.globalQuote = some gq) (h4 : truthy gq.price05 = true) :
    fetchQuote sym (.ok raw) parse =
      .ok ⟨toFixed2 (parseFloatD (jsStr gq.price05)),
           toFixed2 (parseFloatD (jsStr gq.change08)),
           jsOrStr gq.changePct10 "0.00%"⟩ := by
  simp only [fetchQuote, fetchWithTimeout, fetchQuoteBody, h1, h2, h3, h4,
    Bool.false_eq_true, if_false, Bool.not_true, if_true]

/-- Aborting the controller of id `i` marks `i`'s call aborted and changes
nothing else about how `i`'s call is found. -/
theorem abortCtrl_find (calls : List (Nat × SCall)) (id : Nat) :
    ((abortCtrl calls (some id)).find? (fun p => p.1 == id)).map Prod.snd =
      ((calls.find? (fun p => p.1 == id)).map Prod.snd).map (fun c => ⟨c.value, true⟩) := by
  induction calls with
  | nil => rfl
  | cons hd tl ih =>
    obtain ⟨j, c⟩ := hd
    by_cases hj : j = id
    · subst hj
      simp [abortCtrl, List.find?]
    · simp only [abortCtrl, List.map] at ih ⊢
      simp only [List.find?, hj, if_neg]
      have hbeq : (j == id) = false := by simpa using hj
      simp [hbeq, hj]
      simpa [abortCtrl] using ih

/-- The aux step for the debounce induction: with a timer armed at the last
keystroke before `rest` and every keystroke of `rest` arriving within the
quiet interval, only the timer armed by the last keystroke can fire. -/
theorem debounceFires_fast (rest : List (Nat × String)) :
    ∀ t v, fastChain t rest = true →
      debounceFires (armOf t v) rest =
        (if strTrim (lastKey (t, v) rest).2 == "" then []
         else [((lastKey (t, v) rest).1 + 500, (lastKey (t, v) rest).2)]) := by
  induction rest with
  | nil =>
    intro t v _
    simp only [debounceFires, armOf, lastKey]
    split <;> simp_all
  | cons hd tl ih =>
    intro t v hfast
    obtain ⟨t', v'⟩ := hd
    simp only [fastChain, Bool.and_eq_true, decide_eq_true_eq] at hfast
    obtain ⟨⟨h1, h2⟩, h3⟩ := hfast
    simp only [debounceFires, lastKey]
    rw [ih t' v' h3]
    have hle : ¬ (t + 500 ≤ t') := by omega
    have harm : (match armOf t v with
        | some (ft, fv) => if ft ≤ t' then [(ft, fv)] else []
        | none => ([] : List (Nat × String))) = [] := by
      by_cases hv : (strTrim v == "") = true
      · simp [armOf, hv]
      · simp [armOf, hv, hle]
    rw [harm]
    simp

/-! ## C1 — stale-response suppression -/

/-- C1 counterexample: the claim as stated is false.  The trace types "A",
lets the debounce timer fire (issuing call 0 for "A"), then empties the
input — which supersedes the session (results are cleared, no call may use
it any more) but does NOT abort call 0.  When call 0 later resolves, its
results ARE displayed: the final state has empty input but the stale "A"
results on screen. -/
theorem c1_counterexample_stale_displayed :
    (runC initC [CEv.change "A", CEv.fire, CEv.change "",
        CEv.resolveOk 0 [⟨"AAPL", "Apple Inc"⟩]]).map
        (fun s => (s.input, s.results, s.error)) =
      some ("", [⟨"AAPL", "Apple Inc"⟩], none) := by
  decide

/-- C1 (amended): suppression holds only for calls whose `AbortController`
has actually been aborted — which `handleChange` does to the previous
in-flight call when the NEXT debounce timer fires, and the unmount cleanup
does to the current call.  Conjuncts: (1) aborting a controller marks its
call aborted; (2) `fire` aborts the previous current call and issues the new
one; (3) `unmount` aborts the current call and clears the timer; (4) an
aborted call can never resolve successfully (so its results are never
displayed); (5) an aborted call's rejection leaves both the displayed
results and the error untouched.  In the window between supersession and the
next abort, a superseded call that resolves is still displayed
(`c1_counterexample_stale_displayed`). -/
theorem c1_aborted_call_never_displayed :
    (∀ (calls : List (Nat × SCall)) (i : Nat) (c : SCall),
      (calls.find? (fun p => p.1 == i)).map Prod.snd = some c →
      ((abortCtrl calls (some i)).find? (fun p => p.1 == i)).map Prod.snd =
        some ⟨c.value, true⟩) ∧
    (∀ (s : CState) (v : String) (s' : CState), s.timer = some v →
      stepC s CEv.fire = some s' →
      s'.calls = abortCtrl s.calls s.ctrl ++ [(s.nextId, ⟨v, false⟩)]) ∧
    (∀ (s s' : CState), stepC s CEv.unmount = some s' →
      s'.calls = abortCtrl s.calls s.ctrl ∧ s'.timer = none) ∧
    (∀ (s : CState) (id : Nat) (c : SCall) (data : List SearchResult),
      (s.calls.find? (fun p => p.1 == id)).map Prod.snd = some c → c.aborted = true →
      stepC s (CEv.resolveOk id data) = none) ∧
    (∀ (s : CState) (id : Nat) (c : SCall) (e : JsError) (s' : CState),
      (s.calls.find? (fun p => p.1 == id)).map Prod.snd = some c → c.aborted = true →
      stepC s (CEv.resolveErr id e) = some s' →
      s'.results = s.results ∧ s'.error = s.error) := by
  refine ⟨?_, ?_, ?_, ?_, ?_⟩
  · intro calls i c hc
    rw [abortCtrl_find, hc]
    rfl
  · intro s v s' ht hstep
    simp only [stepC, ht] at hstep
    split at hstep
    · cases hstep
      rfl
    · cases hstep
  · intro s s' hstep
    simp only [stepC] at hstep
    split at hstep
    · cases hstep
      exact ⟨rfl, rfl⟩
    · cases hstep
  · intro s id c data hc hab
    simp [stepC, hc, hab]
  · intro s id c e s' hc hab hstep
    simp only [stepC, hc] at hstep
    split at hstep
    · cases hstep
    · rename_i hcond
      have he : (e.name == "AbortError") = true := by
        by_contra hne
        exact hcond (by simp [hab, hne])
      cases hstep
      simp [he]

/-- Witness for C1: each conjunct applied at a concrete state. -/
theorem c1_witness :
    ((abortCtrl [(0, (⟨"A", false⟩ : SCall))] (some 0)).find? (fun p => p.1 == 0)).map
        Prod.snd = some ⟨"A", true⟩ ∧
    c1sFired.calls = abortCtrl c1s.calls c1s.ctrl ++ [(c1s.nextId, ⟨"AB", false⟩)] ∧
    (c1sUn.calls = abortCtrl c1sFired.calls c1sFired.ctrl ∧ c1sUn.timer = none) ∧
    stepC c1sFired (CEv.resolveOk 0 [⟨"AAPL", "Apple Inc"⟩]) = none ∧
    (c1sRes.results = c1sFired.results ∧ c1sRes.error = c1sFired.error) :=
  ⟨c1_aborted_call_never_displayed.1 [(0, ⟨"A", false⟩)] 0 ⟨"A", false⟩ (by decide),
   c1_aborted_call_never_displayed.2.1 c1s "AB" c1sFired (by decide) (by decide),
   c1_aborted_call_never_displayed.2.2.1 c1sFired c1sUn (by decide),
   c1_aborted_call_never_displayed.2.2.2.1 c1sFired 0 ⟨"A", true⟩ [⟨"AAPL", "Apple Inc"⟩]
     (by decide) (by decide),
   c1_aborted_call_never_displayed.2.2.2.2 c1sFired 0 ⟨"A", true⟩
     ⟨"AbortError", "signal is aborted"⟩ c1sRes (by decide) (by decide) (by decide)⟩

/-! ## C2 — debounce coalescing -/

/-- C2: for any burst of keystrokes each arriving within the 500 ms quiet
interval of the previous one, with a final value that is non-empty after
trimming, exactly one search call fires; it carries the final accumulated
text and fires exactly 500 ms after the last keystroke (so no call fires
before the quiet interval has elapsed uninterrupted). -/
theorem c2_debounce_single_call (t : Nat) (v : String) (rest : List (Nat × String))
    (hfast : fastChain t rest = true)
    (hne : ¬ strTrim (lastKey (t, v) rest).2 = "") :
    debounceFires none ((t, v) :: rest) =
      [((lastKey (t, v) rest).1 + 500, (lastKey (t, v) rest).2)] := by
  have haux := debounceFires_fast rest t v hfast
  simp only [debounceFires] at *
  rw [haux]
  simp [hne]

/-- Witness for C2: the spec's scenario — "AAPL" typed as four keystrokes
200 ms apart yields exactly one call, with "AAPL", 500 ms after the last
keystroke. -/
theorem c2_witness :
    fastChain 0 [(200, "AA"), (400, "AAP"), (600, "AAPL")] = true ∧
    debounceFires none [(0, "A"), (200, "AA"), (400, "AAP"), (600, "AAPL")] =
      [(1100, "AAPL")] :=
  ⟨by decide,
   c2_debounce_single_call 0 "A" [(200, "AA"), (400, "AAP"), (600, "AAPL")]
     (by decide) (by decide)⟩

/-! ## C3 — rate-limited fetchQuote -/

/-- C3 counterexample: the generic placeholder's change is the string
`"0.50"` (and its change percent `"0.50%"`), not `"+0.50"` (`"+0.50%"`) as
the claim states — the `+` is added only by the rendering layer. -/
theorem c3_counterexample_generic_change :
    getMockQuote "ZZZZ" = ⟨"100.00", "0.50", "0.50%"⟩ ∧
    ¬ (getMockQuote "ZZZZ").change = "+0.50" ∧
    ¬ (getMockQuote "ZZZZ").changePct = "+0.50%" := by
  decide

/-- C3 (amended): on a rate-limited payload `fetchQuote` always succeeds with
`getMockQuote` — the fixed per-symbol mock (for "AAPL":
price "228.87", change "2.45", change percent "1.08%"), falling back to the
generic placeholder `{ price: "100.00", change: "0.50", changePct: "0.50%" }`
for any symbol absent from the mock table. -/
theorem c3_rate_limited_quote_mock :
    (∀ (sym raw msg : String) (parse : String → Option Payload) (p : Payload),
      parse raw = some p → jsOr p.information p.note = some msg → msg ≠ "" →
      isRateLimited msg = true →
      fetchQuote sym (.ok raw) parse = .ok (getMockQuote sym)) ∧
    getMockQuote "AAPL" = ⟨"228.87", "2.45", "1.08%"⟩ ∧
    (∀ sym, assocGet MOCK_QUOTE_DATA sym = none →
      getMockQuote sym = ⟨"100.00", "0.50", "0.50%"⟩) := by
  refine ⟨fetchQuote_rateLimited_eq, by decide, ?_⟩
  intro sym h
  simp [getMockQuote, h]

/-- Witness for C3: the spec's scenario (`Information` carrying
"call frequency" for "AAPL"), and the generic fallback at an absent symbol. -/
theorem c3_witness :
    fetchQuote "AAPL" (.ok "{}")
        (fun _ => some ⟨some "call frequency", none, none, none⟩) =
      .ok (getMockQuote "AAPL") ∧
    getMockQuote "ZZZT" = ⟨"100.00", "0.50", "0.50%"⟩ :=
  ⟨c3_rate_limited_quote_mock.1 "AAPL" "{}" "call frequency"
      (fun _ => some ⟨some "call frequency", none, none, none⟩)
      ⟨some "call frequency", none, none, none⟩
      (by decide) (by decide) (by decide) (by decide),
   c3_rate_limited_quote_mock.2.2 "ZZZT" (by decide)⟩

/-! ## C4 — rate-limited search -/

/-- C4 counterexample: the claim's prefix direction is reversed.  For keyword
"aa" NO mock key is a prefix of the keyword (so the claim demands
`NotFound`), yet the rate-limited search succeeds with the "aapl" mock
results — the code matches mock keys that START WITH the keyword. -/
theorem c4_counterexample_matching_direction :
    searchSymbol "aa" (.ok "{}") false
        (fun _ => some ⟨some "rate limit", none, none, none⟩) =
      .ok [⟨"AAPL", "Apple Inc"⟩, ⟨"AAPLX", "Apple Hospitality REIT"⟩] ∧
    MOCK_SEARCH_DATA.all (fun pr => !(strStartsWith "aa" pr.1)) = true := by
  decide

/-- C4 (amended): on a rate-limited payload `search` returns the mock result
list of the first mock entry whose key starts with the lower-cased keyword
(exact match first), and fails with the not-found error exactly when the
lower-cased keyword is a prefix of NO mock entry's key. -/
theorem c4_rate_limited_search_mock :
    (∀ (kw raw msg : String) (parse : String → Option Payload) (p : Payload),
      parse raw = some p → jsOr p.information p.note = some msg → msg ≠ "" →
      isRateLimited msg = true →
      searchSymbol kw (.ok raw) false parse = getMockSearchResults kw) ∧
    (∀ kw : String,
      getMockSearchResults kw =
          .error (jsError "Symbol not found. Check your spelling.") ↔
        ∀ pr ∈ MOCK_SEARCH_DATA, strStartsWith pr.1 (strLower kw) = false) :=
  ⟨searchSymbol_rateLimited_eq, mockSearch_notFound_iff⟩

/-- Witness for C4: a rate-limited search for "tsla" delegating to the mock
table, and the not-found characterization at "zz". -/
theorem c4_witness :
    searchSymbol "tsla" (.ok "{}") false
        (fun _ => some ⟨none, some "Thank you for your patience", none, none⟩) =
      getMockSearchResults "tsla" ∧
    (getMockSearchResults "zz" =
        .error (jsError "Symbol not found. Check your spelling.") ↔
      ∀ pr ∈ MOCK_SEARCH_DATA, strStartsWith pr.1 (strLower "zz") = false) :=
  ⟨c4_rate_limited_search_mock.1 "tsla" "{}" "Thank you for your patience"
      (fun _ => some ⟨none, some "Thank you for your patience", none, none⟩)
      ⟨none, some "Thank you for your patience", none, none⟩
      (by decide) (by decide) (by decide) (by decide),
   c4_rate_limited_search_mock.2 "zz"⟩

/-! ## C5 — failure classification -/

/-- C5: `parseError` is exactly the spec's deterministic, order-sensitive
first-match classification (timeout, then rate-limit/429, then invalid, then
not-found, else unknown) composed with the fixed message-per-kind mapping;
in particular an input matching several phrases gets the earliest kind's
message, as the concrete multi-phrase instance shows. -/
theorem c5_classification_first_match :
    (∀ (err : JsError) (rawBody : String),
      parseError err rawBody =
        messageFor (classifyKind (err.message ++ " " ++ rawBody))) ∧
    parseError ⟨"Error", "timeout"⟩ "premium rate limit 429 invalid not found No data" =
      "Connection timed out. Please try again." := by
  constructor
  · intro err rawBody
    simp only [parseError, classifyKind, specClassOrder, firstMatchKind]
    split_ifs <;> rfl
  · decide

/-! ## C6 — cancellation is never classified or shown -/

/-- C6: an externally-cancelled `searchSymbol` call fails with the raw abort
error itself (name "AbortError"), never with a classified message; and the
controller swallows any resolution carrying an `AbortError` — the displayed
results and the error state are left exactly as they were. -/
theorem c6_cancelled_swallowed :
    (∀ (kw : String) (e : JsError) (parse : String → Option Payload),
      e.name = "AbortError" →
      searchSymbol kw (.error e) true parse = .error e) ∧
    (∀ (s : CState) (id : Nat) (e : JsError) (s' : CState), e.name = "AbortError" →
      stepC s (CEv.resolveErr id e) = some s' →
      s'.results = s.results ∧ s'.error = s.error) := by
  constructor
  · intro kw e parse he
    simp [searchSymbol, fetchWithTimeout, searchSymbolCatch, he]
  · intro s id e s' he hstep
    rcases hfind : (s.calls.find? (fun p => p.1 == id)).map Prod.snd with _ | c
    · simp only [stepC, hfind] at hstep
      cases hstep
    · simp only [stepC, hfind] at hstep
      split at hstep
      · cases hstep
      · cases hstep
        simp [he]

/-- Witness for C6: a concrete externally-aborted transport failure, and a
concrete controller state resolving with an `AbortError`. -/
theorem c6_witness :
    searchSymbol "x" (.error ⟨"AbortError", "signal is aborted"⟩) true (fun _ => none) =
      .error ⟨"AbortError", "signal is aborted"⟩ ∧
    (c6exAfter.results = c6exState.results ∧ c6exAfter.error = c6exState.error) :=
  ⟨c6_cancelled_swallowed.1 "x" ⟨"AbortError", "signal is aborted"⟩ (fun _ => none) rfl,
   c6_cancelled_swallowed.2 c6exState 0 ⟨"AbortError", "signal is aborted"⟩ c6exAfter
     rfl (by decide)⟩

/-! ## C7 — per-symbol independence and the error frame -/

/-- C7: each of `fetchStock`'s three updaters touches only its own symbol's
entry — any other symbol's entry (hence its status) is bitwise unchanged —
and the error updater stores the classified message and clears `loading`
while keeping the previously stored quote value fields of that symbol. -/
theorem c7_per_symbol_frame (sd : StockData) (sym other msg : String) (q : Quote)
    (now : Nat) (hne : other ≠ sym) :
    applyError sd sym msg other = sd other ∧
    applySuccess sd sym q now other = sd other ∧
    applyLoading sd sym other = sd other ∧
    applyError sd sym msg sym =
      some { (sd sym).getD emptyEntry with loading := false, error := some msg } := by
  refine ⟨?_, ?_, ?_, ?_⟩ <;> simp [applyError, applySuccess, applyLoading, hne]

/-- Witness for C7: MSFT errors while AAPL's entry — and MSFT's stored quote
fields — stay untouched. -/
theorem c7_witness :
    applyError sd7 "MSFT" "Connection timed out. Please try again." "AAPL" = sd7 "AAPL" ∧
    applySuccess sd7 "MSFT" q8 5 "AAPL" = sd7 "AAPL" ∧
    applyLoading sd7 "MSFT" "AAPL" = sd7 "AAPL" ∧
    applyError sd7 "MSFT" "Connection timed out. Please try again." "MSFT" =
      some { (sd7 "MSFT").getD emptyEntry with
              loading := false
              error := some "Connection timed out. Please try again." } :=
  c7_per_symbol_frame sd7 "MSFT" "AAPL" "Connection timed out. Please try again."
    q8 5 (by decide)

/-! ## C8 — QuoteEntry lifecycle -/

/-- C8 counterexample: an entry is NOT destroyed for good when its symbol
leaves the watchlist.  Add "AAPL" (entry created, fetch in flight), remove
it (entry deleted), then let the still-in-flight fetch resolve: the final
state has "AAPL" outside the watchlist yet owning a full Success entry —
refuting "exactly one QuoteEntry exists per currently-watched symbol at
every point in time ... destroyed when the symbol leaves the watchlist". -/
theorem c8_counterexample_resurrected_entry :
    (runA (initA []) [AEv.add "AAPL", AEv.remove "AAPL",
        AEv.resolveOk "AAPL" ⟨"1.00", "0.10", "1%"⟩ 7]).map
        (fun s => (s.watchlist, s.stockData "AAPL")) =
      some ([], some ⟨some "1.00", some "0.10", some "1%", some 7, false, none⟩) := by
  decide

/-- C8 (amended): `handleAdd` (when not full and not a duplicate) creates the
symbol's entry immediately in Loading and touches no other entry;
`handleRemove` deletes exactly that symbol's entry; and every fetch
resolution mutates only its own symbol's entry and never the watchlist.
However a fetch still in flight when its symbol is removed re-creates the
entry when it resolves (`c8_counterexample_resurrected_entry`). -/
theorem c8_entry_lifecycle :
    (∀ (s : AppState) (sym : String), ¬ 5 ≤ s.watchlist.length → sym ∉ s.watchlist →
      stepA s (AEv.add sym) =
        some ⟨s.watchlist ++ [sym], applyLoading s.stockData sym, s.pending ++ [sym]⟩ ∧
      applyLoading s.stockData sym sym =
        some { (s.stockData sym).getD emptyEntry with loading := true, error := none }) ∧
    (∀ (s : AppState) (sym : String) (s' : AppState), stepA s (AEv.remove sym) = some s' →
      s'.stockData sym = none ∧ sym ∉ s'.watchlist ∧
      ∀ other, other ≠ sym → s'.stockData other = s.stockData other) ∧
    (∀ (s : AppState) (sym : String) (q : Quote) (now : Nat) (s' : AppState),
      stepA s (AEv.resolveOk sym q now) = some s' →
      s'.watchlist = s.watchlist ∧
      ∀ other, other ≠ sym → s'.stockData other = s.stockData other) ∧
    (∀ (s : AppState) (sym msg : String) (s' : AppState),
      stepA s (AEv.resolveErr sym msg) = some s' →
      s'.watchlist = s.watchlist ∧
      ∀ other, other ≠ sym → s'.stockData other = s.stockData other) := by
  refine ⟨?_, ?_, ?_, ?_⟩
  · intro s sym hlen hmem
    constructor
    · simp [stepA, hlen, hmem]
    · simp [applyLoading]
  · intro s sym s' hstep
    simp only [stepA] at hstep
    cases hstep
    refine ⟨by simp, ?_, ?_⟩
    · simp [List.mem_filter]
    · intro other hne
      simp [hne]
  · intro s sym q now s' hstep
    simp only [stepA] at hstep
    split at hstep
    · cases hstep
      exact ⟨rfl, fun other hne => by simp [applySuccess, hne]⟩
    · cases hstep
  · intro s sym msg s' hstep
    simp only [stepA] at hstep
    split at hstep
    · cases hstep
      exact ⟨rfl, fun other hne => by simp [applyError, hne]⟩
    · cases hstep

/-- Witness for C8: each conjunct applied at a concrete state. -/
theorem c8_witness :
    stepA (initA []) (AEv.add "AAPL") =
      some ⟨(initA []).watchlist ++ ["AAPL"], applyLoading (initA []).stockData "AAPL",
        (initA []).pending ++ ["AAPL"]⟩ ∧
    applyLoading (initA []).stockData "AAPL" "AAPL" =
      some { ((initA []).stockData "AAPL").getD emptyEntry with
              loading := true
              error := none } ∧
    a8r.stockData "AAPL" = none ∧
    "AAPL" ∉ a8r.watchlist ∧
    a8r.stockData "MSFT" = a8.stockData "MSFT" ∧
    a8ok.watchlist = a8.watchlist ∧
    a8ok.stockData "MSFT" = a8.stockData "MSFT" :=
  ⟨(c8_entry_lifecycle.1 (initA []) "AAPL" (by decide) (by decide)).1,
   (c8_entry_lifecycle.1 (initA []) "AAPL" (by decide) (by decide)).2,
   (c8_entry_lifecycle.2.1 a8 "AAPL" a8r rfl).1,
   (c8_entry_lifecycle.2.1 a8 "AAPL" a8r rfl).2.1,
   (c8_entry_lifecycle.2.1 a8 "AAPL" a8r rfl).2.2 "MSFT" (by decide),
   (c8_entry_lifecycle.2.2.1 a8 "AAPL" q8 5 a8ok rfl).1,
   (c8_entry_lifecycle.2.2.1 a8 "AAPL" q8 5 a8ok rfl).2 "MSFT" (by decide)⟩

/-! ## C9 — quote normalization on success -/

/-- C9 counterexample: a present, non-empty but malformed change-percent
field is passed through verbatim, not defaulted to "0.00%": the claim's
"missing or malformed ... yields exactly 0.00%" is false for "garbage". -/
theorem c9_counterexample_percent_passthrough :
    fetchQuote "IBM" (.ok "{}")
        (fun _ => some ⟨none, none, none, some ⟨some "1.5", some "1", some "garbage"⟩⟩) =
      .ok ⟨"1.50", "1.00", "garbage"⟩ ∧
    ¬ ("garbage" : String) = "0.00%" := by
  decide

/-- C9 (amended): on every successful `fetchQuote` response the price and
change fields are `parseFloat(...).toFixed(2)` — which renders exactly two
decimal digits after the dot whenever the field parses as a number — and the
change-percent field defaults to exactly "0.00%" when missing or empty
(JS-falsy), while any other value is passed through verbatim. -/
theorem c9_success_two_decimals :
    (∀ (sym raw : String) (parse : String → Option Payload) (p : Payload) (gq : RawQuote),
      parse raw = some p → truthy (jsOr p.information p.note) = false →
      p.globalQuote = some gq → truthy gq.price05 = true →
      fetchQuote sym (.ok raw) parse =
        .ok ⟨toFixed2 (parseFloatD (jsStr gq.price05)),
             toFixed2 (parseFloatD (jsStr gq.change08)),
             jsOrStr gq.changePct10 "0.00%"⟩) ∧
    (∀ d : DecNum, ∃ pre d1 d2, (toFixed2 (some d)).data = pre ++ ['.', d1, d2] ∧
      d1.isDigit = true ∧ d2.isDigit = true) ∧
    (∀ o : Option String, truthy o = false → jsOrStr o "0.00%" = "0.00%") := by
  refine ⟨fetchQuote_success_eq, toFixed2_shape, ?_⟩
  intro o ho
  simp [jsOrStr, ho]

/-- Witness for C9: a concrete successful response with numeric fields and a
missing change percent. -/
theorem c9_witness :
    fetchQuote "IBM" (.ok "{}")
        (fun _ => some ⟨none, none, none, some ⟨some "1.5", some "1", none⟩⟩) =
      .ok ⟨"1.50", "1.00", "0.00%"⟩ ∧
    jsOrStr none "0.00%" = "0.00%" :=
  ⟨c9_success_two_decimals.1 "IBM" "{}"
      (fun _ => some ⟨none, none, none, some ⟨some "1.5", some "1", none⟩⟩)
      ⟨none, none, none, some ⟨some "1.5", some "1", none⟩⟩
      ⟨some "1.5", some "1", none⟩
      (by decide) (by decide) (by decide) (by decide),
   c9_success_two_decimals.2.2 none (by decide)⟩

/-! ## C10 — non-numeric price passes through as "NaN" -/

/-- C10: a present, non-empty but non-numeric "05. price" does not make
`fetchQuote` fail: the quote is returned with the literal string "NaN" as
its price (`parseFloat` gives `NaN`, `toFixed(2)` renders it), and likewise
for a non-numeric change field. -/
theorem c10_nonnumeric_price_is_nan (sym raw : String) (parse : String → Option Payload)
    (p : Payload) (gq : RawQuote) (h1 : parse raw = some p)
    (h2 : truthy (jsOr p.information p.note) = false)
    (h3 : p.globalQuote = some gq) (h4 : truthy gq.price05 = true)
    (h5 : parseFloatD (jsStr gq.price05) = none) :
    fetchQuote sym (.ok raw) parse =
      .ok ⟨"NaN", toFixed2 (parseFloatD (jsStr gq.change08)),
           jsOrStr gq.changePct10 "0.00%"⟩ ∧
    (parseFloatD (jsStr gq.change08) = none →
      fetchQuote sym (.ok raw) parse =
        .ok ⟨"NaN", "NaN", jsOrStr gq.changePct10 "0.00%"⟩) := by
  have heq := fetchQuote_success_eq sym raw parse p gq h1 h2 h3 h4
  rw [h5] at heq
  constructor
  · exact heq
  · intro hc
    rw [hc] at heq
    exact heq

/-- Witness for C10: price "abc" and change "x1" yield a successful quote
with both fields "NaN". -/
theorem c10_witness :
    fetchQuote "IBM" (.ok "{}") parse10 = .ok ⟨"NaN", "NaN", "0.00%"⟩ :=
  (c10_nonnumeric_price_is_nan "IBM" "{}" parse10
      ⟨none, none, none, some ⟨some "abc", some "x1", none⟩⟩
      ⟨some "abc", some "x1", none⟩
      (by decide) (by decide) (by decide) (by decide) (by decide)).2 (by decide)
